import Mathlib

/-!
Verification of the rule-based scoring and heuristic-extraction engine of the
website analyzer (Python sources under `website_analyzer/`).  Each Python
function used by the checked properties is shallowly embedded as an
executable Lean definition; machine floats are modelled by exact rationals
(and reals where the code raises to a fractional power), and Python
exceptions by `Except`.
-/

namespace WebsiteAnalyzer

/-- Shallow embedding of `check_heading_hierarchy` from
`website_analyzer/utils/helpers.py` (lines 153-177).  The input is the list
of `(level, text)` pairs in document order; the result is `true` when the
hierarchy has problems: an empty list is fine, a list without a level-1
heading is a problem, and so is any consecutive pair that jumps up by more
than one level. -/
def check_heading_hierarchy (headings : List (Int × String)) : Bool :=
  if headings.isEmpty then false
  else
    let levels := headings.map Prod.fst
    if 1 ∉ levels then true
    else (levels.zip levels.tail).any fun p => p.2 - p.1 > 1

/-- The pairwise `any` over `l.zip l.tail` is the same as an indexed search
for a consecutive pair satisfying the predicate. -/
theorem zipTailAny_iff (p : Int × Int → Bool) :
    ∀ l : List Int, ((l.zip l.tail).any p = true ↔
      ∃ i, i + 1 < l.length ∧ p (l.getD i 0, l.getD (i + 1) 0) = true)
  | [] => by simp
  | [a] => by simp
  | a :: b :: t => by
    have ih := zipTailAny_iff p (b :: t)
    constructor
    · intro h
      rcases (List.any_eq_true).mp h with ⟨q, hq, hpq⟩
      rcases List.mem_cons.mp (by simpa using hq) with hq0 | hqrest
      · exact ⟨0, by simp, by simpa [hq0] using hpq⟩
      · have : ((b :: t).zip (b :: t).tail).any p = true :=
          List.any_eq_true.mpr ⟨q, by simpa using hqrest, hpq⟩
        rcases ih.mp this with ⟨i, hi, hpi⟩
        exact ⟨i + 1, by simpa using Nat.succ_lt_succ hi, by simpa using hpi⟩
    · rintro ⟨i, hi, hpi⟩
      cases i with
      | zero =>
        apply List.any_eq_true.mpr
        exact ⟨(a, b), by simp, by simpa using hpi⟩
      | succ j =>
        have hj : j + 1 < (b :: t).length := by
          simpa using Nat.lt_of_succ_lt_succ (by simpa using hi)
        have : ((b :: t).zip (b :: t).tail).any p = true :=
          ih.mpr ⟨j, hj, by simpa using hpi⟩
        rcases List.any_eq_true.mp this with ⟨q, hq, hpq⟩
        exact List.any_eq_true.mpr ⟨q, by simpa using Or.inr (by simpa using hq), hpq⟩

/-- C5: `check_heading_hierarchy` returns `true` exactly when the heading
list is non-empty and either no level-1 heading occurs in it or some
consecutive pair of headings increases the level by more than 1; in
particular the empty sequence yields `false`, and decreasing or repeated
levels alone are never flagged. -/
theorem check_heading_hierarchy_spec (headings : List (Int × String)) :
    check_heading_hierarchy headings = true ↔
      headings ≠ [] ∧
        ((∀ p ∈ headings, p.1 ≠ 1) ∨
          ∃ i, i + 1 < headings.length ∧
            (headings.map Prod.fst).getD (i + 1) 0
              - (headings.map Prod.fst).getD i 0 > 1) := by
  rw [check_heading_hierarchy]
  by_cases he : headings.isEmpty = true
  · simp [he, List.isEmpty_iff.mp he]
  · rw [if_neg he]
    have hne : headings ≠ [] := by
      intro h0
      exact he (by simp [h0])
    by_cases hm : (1 : Int) ∈ headings.map Prod.fst
    · rw [if_neg (by simpa using hm)]
      have hnot : ¬ (∀ p ∈ headings, p.1 ≠ 1) := by
        rcases List.mem_map.mp hm with ⟨q, hq, hq1⟩
        exact fun hall => hall q hq hq1
      rw [zipTailAny_iff]
      constructor
      · rintro ⟨i, hi, hpi⟩
        refine ⟨hne, Or.inr ⟨i, by simpa using hi, ?_⟩⟩
        have := of_decide_eq_true hpi
        omega
      · rintro ⟨-, hcase⟩
        rcases hcase with hall | ⟨i, hi, hgt⟩
        · exact absurd hall hnot
        · exact ⟨i, by simpa using hi, decide_eq_true (by omega)⟩
    · rw [if_pos (by simpa using hm)]
      have hall : ∀ p ∈ headings, p.1 ≠ 1 := by
        intro q hq hq1
        exact hm (List.mem_map.mpr ⟨q, hq, hq1⟩)
      exact ⟨fun _ => ⟨hne, Or.inl hall⟩, fun _ => rfl⟩

/-- ASCII whitespace in the sense of the Python `\s` class and of
`str.strip` / `int` argument stripping. -/
def pyIsSpace (c : Char) : Bool :=
  c = ' ' || c = '\t' || c = '\n' || c = '\r' || c = '\x0b' || c = '\x0c'

def isHexDig (c : Char) : Bool :=
  ('0' ≤ c && c ≤ '9') || ('a' ≤ c && c ≤ 'f') || ('A' ≤ c && c ≤ 'F')

def hexVal (c : Char) : Nat :=
  if '0' ≤ c && c ≤ '9' then c.toNat - '0'.toNat
  else if 'a' ≤ c && c ≤ 'f' then c.toNat - 'a'.toNat + 10
  else c.toNat - 'A'.toNat + 10

def hexNat (ds : List Char) : Nat := ds.foldl (fun a c => a * 16 + hexVal c) 0

def pyStrip (cs : List Char) : List Char :=
  ((cs.dropWhile pyIsSpace).reverse.dropWhile pyIsSpace).reverse

/-- Model of Python `int(s, 16)` on the at-most-two-character slices produced
by `parse_color`: optional surrounding whitespace, an optional single sign,
then a non-empty run of hexadecimal digits; anything else raises
`ValueError`, modelled as `none`.  (The `0x` literal form and underscore
grouping accepted by `int` need at least three characters of digits and so
cannot occur on these slices; `0x` alone is rejected both here and there.) -/
def pyIntHex (cs : List Char) : Option Int :=
  let t := pyStrip cs
  let sd : Int × List Char :=
    match t with
    | '+' :: rest => (1, rest)
    | '-' :: rest => (-1, rest)
    | _ => (1, t)
  if sd.2.isEmpty then none
  else if sd.2.all isHexDig then some (sd.1 * (hexNat sd.2 : Int))
  else none

def digitVal (c : Char) : Nat := c.toNat - '0'.toNat

def decNat (ds : List Char) : Nat := ds.foldl (fun a c => a * 10 + digitVal c) 0

/-- Attempt to match the regular expression
`rgb\(\s*(\d+)\s*,\s*(\d+)\s*,\s*(\d+)\s*\)` at the head of the character
list, returning the three captured digit groups as numbers.  Backtracking is
irrelevant here: digits, whitespace and the literal separators are pairwise
disjoint character classes, so greedy maximal munch is exact. -/
def rgbMatchAt (cs : List Char) : Option (Nat × Nat × Nat) :=
  match cs with
  | 'r' :: 'g' :: 'b' :: '(' :: rest =>
    let r1 := rest.dropWhile pyIsSpace
    let d1 := r1.takeWhile Char.isDigit
    if d1.isEmpty then none else
    match (r1.dropWhile Char.isDigit).dropWhile pyIsSpace with
    | ',' :: r2 =>
      let r2 := r2.dropWhile pyIsSpace
      let d2 := r2.takeWhile Char.isDigit
      if d2.isEmpty then none else
      match (r2.dropWhile Char.isDigit).dropWhile pyIsSpace with
      | ',' :: r3 =>
        let r3 := r3.dropWhile pyIsSpace
        let d3 := r3.takeWhile Char.isDigit
        if d3.isEmpty then none else
        match (r3.dropWhile Char.isDigit).dropWhile pyIsSpace with
        | ')' :: _ => some (decNat d1, decNat d2, decNat d3)
        | _ => none
      | _ => none
    | _ => none
  | _ => none

/-- Model of `re.search` for the `rgb(...)` pattern: first match anywhere in
the string, scanning positions left to right. -/
def rgbSearch : List Char → Option (Nat × Nat × Nat)
  | [] => none
  | c :: cs =>
    match rgbMatchAt (c :: cs) with
    | some v => some v
    | none => rgbSearch cs

def startsWithHash : List Char → Bool
  | '#' :: _ => true
  | _ => false

def startsWithRgb : List Char → Bool
  | 'r' :: 'g' :: 'b' :: _ => true
  | _ => false

/-- The `#`-branch of `parse_color`: Python slices `color[0:2]`, `color[2:4]`,
`color[4:6]` of the text after `#`, feeds each to `int(-, 16)` and divides by
`255.0`. -/
def parseHexTriple (rest : List Char) : Except String (ℚ × ℚ × ℚ) :=
  match pyIntHex (rest.take 2), pyIntHex ((rest.drop 2).take 2),
      pyIntHex ((rest.drop 4).take 2) with
  | some r, some g, some b =>
      Except.ok ((r : ℚ) / 255, (g : ℚ) / 255, (b : ℚ) / 255)
  | _, _, _ => Except.error "ValueError"

/-- Shallow embedding of the inner `parse_color` of
`calculate_contrast_ratio` (`website_analyzer/utils/helpers.py`, lines
40-54).  The channel values are exact rationals (Python divides by `255.0`);
a `ValueError` escaping from `int(slice, 16)` is modelled as
`Except.error`. -/
def parse_color (cs : List Char) : Except String (ℚ × ℚ × ℚ) :=
  if startsWithHash cs then parseHexTriple (cs.drop 1)
  else if startsWithRgb cs then
    match rgbSearch cs with
    | some (r, g, b) =>
        Except.ok ((r : ℚ) / 255, (g : ℚ) / 255, (b : ℚ) / 255)
    | none => Except.ok (0, 0, 0)
  else Except.ok (0, 0, 0)

/-- Shallow embedding of the inner `adjust_color_value`: the sRGB gamma
expansion, with the fractional power taken over the reals. -/
noncomputable def adjust_color_value (v : ℝ) : ℝ :=
  if v ≤ 0.03928 then v / 12.92 else ((v + 0.055) / 1.055) ^ (2.4 : ℝ)

/-- Shallow embedding of the inner `get_luminance`. -/
noncomputable def get_luminance (r g b : ℝ) : ℝ :=
  0.2126 * adjust_color_value r + 0.7152 * adjust_color_value g
    + 0.0722 * adjust_color_value b

/-- The pure tail of `calculate_contrast_ratio` once both colors parsed. -/
noncomputable def contrast_of (t1 t2 : ℚ × ℚ × ℚ) : ℝ :=
  let l1 := get_luminance (t1.1 : ℝ) (t1.2.1 : ℝ) (t1.2.2 : ℝ)
  let l2 := get_luminance (t2.1 : ℝ) (t2.2.1 : ℝ) (t2.2.2 : ℝ)
  if l1 > l2 then (l1 + 0.05) / (l2 + 0.05) else (l2 + 0.05) / (l1 + 0.05)

/-- Shallow embedding of `calculate_contrast_ratio`
(`website_analyzer/utils/helpers.py`, lines 29-80): parse both colors (a
`ValueError` raised while parsing propagates), then compare luminances. -/
noncomputable def calculate_contrast_ratio (c1 c2 : String) :
    Except String ℝ := do
  let t1 ← parse_color c1.toList
  let t2 ← parse_color c2.toList
  pure (contrast_of t1 t2)

/-- C2 counterexample: on the pair `("#fff", "#ffffff")` the function does
raise — `parse_color` slices `"#fff"` into `"ff"`, `"f"` and `""`, and
`int("", 16)` raises `ValueError` — so it is false that every pair of input
strings yields a ratio. -/
theorem calculate_contrast_ratio_raises_on_short_hex :
    calculate_contrast_ratio "#fff" "#ffffff" = Except.error "ValueError" := rfl

/-- `parse_color` cannot fail on a string that does not begin with `#`. -/
theorem parse_color_ok_of_no_hash (cs : List Char)
    (h : startsWithHash cs = false) : ∃ t, parse_color cs = Except.ok t := by
  rw [parse_color, h]
  simp only [Bool.false_eq_true, if_false]
  by_cases hr : startsWithRgb cs = true
  · rw [if_pos hr]
    rcases hs : rgbSearch cs with - | ⟨r, g, b⟩
    · exact ⟨(0, 0, 0), rfl⟩
    · exact ⟨((r : ℚ) / 255, (g : ℚ) / 255, (b : ℚ) / 255), rfl⟩
  · rw [if_neg hr]
    exact ⟨(0, 0, 0), rfl⟩

/-- When the `rgb(...)` pattern is not found, a non-`#` color degrades to
black. -/
theorem parse_color_black_of_unrecognized (cs : List Char)
    (h : startsWithHash cs = false) (hs : rgbSearch cs = none) :
    parse_color cs = Except.ok (0, 0, 0) := by
  rw [parse_color, h]
  simp only [Bool.false_eq_true, if_false]
  by_cases hr : startsWithRgb cs = true
  · rw [if_pos hr, hs]
  · rw [if_neg hr]

/-- C2 (amended): for every pair of input strings neither of which begins
with `#`, `calculate_contrast_ratio` raises no exception and returns a
ratio, and any such color whose `rgb(r,g,b)` syntax is not recognized
resolves to the RGB triple `(0,0,0)`; a color beginning with `#` whose hex
digits are malformed or missing raises `ValueError` instead. -/
theorem calculate_contrast_ratio_total_of_no_hash (c1 c2 : String)
    (h1 : startsWithHash c1.toList = false)
    (h2 : startsWithHash c2.toList = false) :
    (∃ r : ℝ, calculate_contrast_ratio c1 c2 = Except.ok r) ∧
      (rgbSearch c1.toList = none →
        parse_color c1.toList = Except.ok (0, 0, 0)) ∧
      (rgbSearch c2.toList = none →
        parse_color c2.toList = Except.ok (0, 0, 0)) := by
  obtain ⟨t1, e1⟩ := parse_color_ok_of_no_hash _ h1
  obtain ⟨t2, e2⟩ := parse_color_ok_of_no_hash _ h2
  refine ⟨⟨contrast_of t1 t2, ?_⟩,
    fun hn => parse_color_black_of_unrecognized _ h1 hn,
    fun hn => parse_color_black_of_unrecognized _ h2 hn⟩
  rw [calculate_contrast_ratio, e1, e2]
  rfl

/-- Witness for the amended C2 theorem at the concrete pair
`("red", "blue")`. -/
theorem calculate_contrast_ratio_total_witness :
    (∃ r : ℝ, calculate_contrast_ratio "red" "blue" = Except.ok r) ∧
      (rgbSearch "red".toList = none →
        parse_color "red".toList = Except.ok (0, 0, 0)) ∧
      (rgbSearch "blue".toList = none →
        parse_color "blue".toList = Except.ok (0, 0, 0)) :=
  calculate_contrast_ratio_total_of_no_hash "red" "blue" (by decide) (by decide)

theorem parseHexTriple_ok (rest : List Char) (r g b : Int)
    (h1 : pyIntHex (rest.take 2) = some r)
    (h2 : pyIntHex ((rest.drop 2).take 2) = some g)
    (h3 : pyIntHex ((rest.drop 4).take 2) = some b) :
    parseHexTriple rest =
      Except.ok ((r : ℚ) / 255, (g : ℚ) / 255, (b : ℚ) / 255) := by
  rw [parseHexTriple, h1, h2, h3]

theorem parse_color_hash (cs : List Char) (h : startsWithHash cs = true) :
    parse_color cs = parseHexTriple (cs.drop 1) := by
  rw [parse_color, h, if_pos rfl]

theorem parse_black : parse_color "#000000".toList = Except.ok (0, 0, 0) := by
  rw [parse_color_hash _ (by decide),
    parseHexTriple_ok _ 0 0 0 (by decide) (by decide) (by decide)]
  norm_num

theorem parse_white : parse_color "#ffffff".toList = Except.ok (1, 1, 1) := by
  rw [parse_color_hash _ (by decide),
    parseHexTriple_ok _ 255 255 255 (by decide) (by decide) (by decide)]
  norm_num

theorem adjust_zero : adjust_color_value 0 = 0 := by
  rw [adjust_color_value, if_pos (by norm_num)]
  norm_num

theorem adjust_one : adjust_color_value 1 = 1 := by
  rw [adjust_color_value, if_neg (by norm_num)]
  have h : ((1 : ℝ) + 0.055) / 1.055 = 1 := by norm_num
  rw [h, Real.one_rpow]

/-- C8: the contrast ratio of pure black against pure white is exactly 21
(the model computes with exact arithmetic; the lower luminance is 0 and the
higher is 1, giving `(1 + 0.05) / (0 + 0.05) = 21`). -/
theorem contrast_black_white_eq_21 :
    calculate_contrast_ratio "#000000" "#ffffff" = Except.ok 21 := by
  rw [calculate_contrast_ratio, parse_black, parse_white]
  show Except.ok (contrast_of (0, 0, 0) (1, 1, 1)) = Except.ok 21
  have hl0 : get_luminance ((0 : ℚ) : ℝ) ((0 : ℚ) : ℝ) ((0 : ℚ) : ℝ) = 0 := by
    rw [get_luminance]
    norm_num [adjust_zero]
  have hl1 : get_luminance ((1 : ℚ) : ℝ) ((1 : ℚ) : ℝ) ((1 : ℚ) : ℝ) = 1 := by
    rw [get_luminance]
    norm_num [adjust_one]
  rw [contrast_of]
  simp only
  rw [hl0, hl1, if_neg (by norm_num)]
  norm_num

/-- The character class `[#0-9a-zA-Z(,)\s.]` of the CSS color-value
patterns (ASCII reading of `\s`, `0-9`, `a-zA-Z`). -/
def inClass1 (c : Char) : Bool :=
  c = '#' || c.isDigit || c.isAlpha || c = '(' || c = ',' || c = ')' ||
    pyIsSpace c || c = '.'

/-- Consume an exact literal; `none` when the text does not start with it. -/
def stripLit : List Char → List Char → Option (List Char)
  | [], cs => some cs
  | _ :: _, [] => none
  | l :: ls, c :: cs => if c = l then stripLit ls cs else none

/-- The `\s*([C]+)` tail of the color patterns with Python regex
backtracking: `\s*` is greedy but hands its last character back to the
mandatory class when the class run after the whitespace is empty.  Returns
the captured group together with the remainder after the whole match. -/
def tailCapture (cls : Char → Bool) (cs : List Char) :
    Option (List Char × List Char) :=
  let ws := cs.takeWhile pyIsSpace
  let afterWs := cs.dropWhile pyIsSpace
  let grp := afterWs.takeWhile cls
  if !grp.isEmpty then some (grp, afterWs.dropWhile cls)
  else
    match ws.reverse with
    | last :: _ => if cls last then some ([last], afterWs) else none
    | [] => none

/-- `background(-color)?:` — the greedy optional group tries `-color:`
before the bare `:`. -/
def bgHead (cs : List Char) : Option (List Char) :=
  match stripLit "background".toList cs with
  | none => none
  | some rest =>
    match stripLit "-color:".toList rest with
    | some r2 => some r2
    | none => stripLit ":".toList rest

/-- First background pattern `background(-color)?:\s*([#0-9a-zA-Z(,)\s.]+)`
tried at one position; the captured group is group 2. -/
def bg1At (cs : List Char) : Option (List Char × List Char) :=
  (bgHead cs).bind (tailCapture inClass1)

/-- Second background pattern `background(-color)?:\s*([a-zA-Z]+)`. -/
def bg2At (cs : List Char) : Option (List Char × List Char) :=
  (bgHead cs).bind (tailCapture Char.isAlpha)

/-- Text pattern `color:\s*([#0-9a-zA-Z(,)\s.]+)`. -/
def colorAt (cs : List Char) : Option (List Char × List Char) :=
  (stripLit "color:".toList cs).bind (tailCapture inClass1)

/-- `[^}]*color:\s*([#0-9a-zA-Z(,)\s.]+)` after an opening brace: the
greedy `[^}]*` selects the rightmost viable `color:` occurrence inside the
run of non-closing-brace characters. -/
def braceColorCapture (cs : List Char) : Option (List Char × List Char) :=
  let bound := (cs.takeWhile (fun c => c ≠ '\x7d')).length
  (List.range (bound + 1)).reverse.findSome? fun p =>
    (stripLit "color:".toList (cs.drop p)).bind (tailCapture inClass1)

/-- Link pattern `a\s*{[^}]*color:\s*(...)` tried at one position. -/
def link1At (cs : List Char) : Option (List Char × List Char) :=
  match stripLit "a".toList cs with
  | none => none
  | some r1 =>
    match r1.dropWhile pyIsSpace with
    | '\x7b' :: r2 => braceColorCapture r2
    | _ => none

/-- Link pattern `a:link\s*{[^}]*color:\s*(...)` tried at one position. -/
def link2At (cs : List Char) : Option (List Char × List Char) :=
  match stripLit "a:link".toList cs with
  | none => none
  | some r1 =>
    match r1.dropWhile pyIsSpace with
    | '\x7b' :: r2 => braceColorCapture r2
    | _ => none

/-- Left-to-right, non-overlapping scan of `re.finditer`: on a match,
continue after it; otherwise advance one character.  `fuel` bounds the
recursion; every successful match consumes at least one character, so
`fuel = cs.length` never runs out early. -/
def finditer (matchAt : List Char → Option (List Char × List Char)) :
    Nat → List Char → List (List Char)
  | 0, _ => []
  | _ + 1, [] => []
  | fuel + 1, c :: cs =>
    match matchAt (c :: cs) with
    | some (g, rest) => g :: finditer matchAt fuel rest
    | none => finditer matchAt fuel cs

def findAllMatches (matchAt : List Char → Option (List Char × List Char))
    (cs : List Char) : List (List Char) :=
  finditer matchAt cs.length cs

/-- Strip a captured group and keep it unless it is empty or one of the
excluded keywords (Python:
`if color and color != 'transparent' and ...: append`). -/
def keepColor (excluded : List (List Char)) (g : List Char) :
    Option (List Char) :=
  let c := pyStrip g
  if c.isEmpty then none
  else if c ∈ excluded then none
  else some c

structure CssColors where
  background : List (List Char)
  text : List (List Char)
  link : List (List Char)

/-- Shallow embedding of `extract_css_colors`
(`website_analyzer/utils/helpers.py`, lines 99-151).  The two background
patterns exclude `transparent`, `inherit` and `initial`; the text and link
patterns exclude only `inherit` and `initial`.  Python finishes with
`list(set(...))`, modelled as `List.dedup`. -/
def extract_css_colors (css : List Char) : CssColors :=
  { background :=
      ((findAllMatches bg1At css ++ findAllMatches bg2At css).filterMap
        (keepColor ["transparent".toList, "inherit".toList,
          "initial".toList])).dedup
    text :=
      ((findAllMatches colorAt css).filterMap
        (keepColor ["inherit".toList, "initial".toList])).dedup
    link :=
      ((findAllMatches link1At css ++ findAllMatches link2At css).filterMap
        (keepColor ["inherit".toList, "initial".toList])).dedup }

/-- C6 counterexample: on the stylesheet text `color: transparent` the
extracted text-color list contains the keyword `transparent`; only the
background patterns exclude that keyword, so the claim that none of the
three lists contains it is false. -/
theorem extract_css_colors_transparent_in_text :
    "transparent".toList ∈
      (extract_css_colors ("color: transparent".toList)).text := by
  decide

/-- Anything surviving `keepColor` (then `dedup`) avoids the excluded
keywords and is non-empty. -/
theorem mem_keepColor_dedup (excluded : List (List Char))
    (l : List (List Char)) (c : List Char)
    (hc : c ∈ (l.filterMap (keepColor excluded)).dedup) :
    c ∉ excluded ∧ c ≠ [] := by
  rcases List.mem_filterMap.mp (List.mem_dedup.mp hc) with ⟨g, -, hg⟩
  simp only [keepColor] at hg
  split_ifs at hg with h1 h2
  all_goals first
    | exact Option.noConfusion hg
    | (injection hg with hgc
       subst hgc
       exact ⟨h2, fun h0 => h1 (by simp [h0])⟩)

/-- C6 (amended): for every CSS text the three extracted lists contain no
duplicates and no empty entries; the background list contains none of the
keywords `transparent`, `inherit`, `initial`, while the text and link lists
exclude only `inherit` and `initial` (they may contain `transparent`). -/
theorem extract_css_colors_spec (css : List Char) :
    ((extract_css_colors css).background.Nodup ∧
        (extract_css_colors css).text.Nodup ∧
        (extract_css_colors css).link.Nodup) ∧
      (∀ c ∈ (extract_css_colors css).background,
        c ≠ "transparent".toList ∧ c ≠ "inherit".toList ∧
          c ≠ "initial".toList ∧ c ≠ []) ∧
      (∀ c ∈ (extract_css_colors css).text,
        c ≠ "inherit".toList ∧ c ≠ "initial".toList ∧ c ≠ []) ∧
      (∀ c ∈ (extract_css_colors css).link,
        c ≠ "inherit".toList ∧ c ≠ "initial".toList ∧ c ≠ []) := by
  refine ⟨⟨List.nodup_dedup _, List.nodup_dedup _, List.nodup_dedup _⟩,
    ?_, ?_, ?_⟩
  · intro c hc
    have h := mem_keepColor_dedup _ _ c hc
    have hmem := h.1
    simp only [List.mem_cons, List.not_mem_nil, or_false] at hmem
    push_neg at hmem
    exact ⟨hmem.1, hmem.2.1, hmem.2.2, h.2⟩
  · intro c hc
    have h := mem_keepColor_dedup _ _ c hc
    have hmem := h.1
    simp only [List.mem_cons, List.not_mem_nil, or_false] at hmem
    push_neg at hmem
    exact ⟨hmem.1, hmem.2, h.2⟩
  · intro c hc
    have h := mem_keepColor_dedup _ _ c hc
    have hmem := h.1
    simp only [List.mem_cons, List.not_mem_nil, or_false] at hmem
    push_neg at hmem
    exact ⟨hmem.1, hmem.2, h.2⟩

/-- Splitting a list by a predicate and its negation partitions its
length. -/
theorem length_filter_add_length_filter_not {α : Type} (p : α → Bool)
    (l : List α) :
    (l.filter p).length + (l.filter fun x => !p x).length = l.length := by
  induction l with
  | nil => rfl
  | cons a t ih => cases h : p a <;> simp [h] <;> omega

/-- Filtering by a stronger predicate yields at most as many elements. -/
theorem length_filter_le_length_filter {α : Type} (p q : α → Bool)
    (l : List α) (h : ∀ x, p x = true → q x = true) :
    (l.filter p).length ≤ (l.filter q).length := by
  induction l with
  | nil => simp
  | cons a t ih =>
    by_cases hp : p a = true
    · simp [hp, h a hp]
      omega
    · cases hq : q a <;>
        simp [Bool.eq_false_iff.mpr hp, hq] <;> omega

/-- A parsed HTML node: an element with a tag name, attributes (first
occurrence wins on lookup, as in a parsed attribute dict) and children, or
a text node. -/
inductive Node where
  | elem (tag : String) (attrs : List (String × String)) (children : List Node)
  | text (s : String)

mutual

/-- A node together with its descendants, in document (preorder) order. -/
def Node.selfAndDescendants : Node → List Node
  | .text s => [.text s]
  | .elem t a cs => .elem t a cs :: descendantsList cs

/-- The nodes of a forest, in document order. -/
def descendantsList : List Node → List Node
  | [] => []
  | n :: ns => n.selfAndDescendants ++ descendantsList ns

end

/-- All strict descendants of a node, in document order. -/
def Node.descendants : Node → List Node
  | .text _ => []
  | .elem _ _ cs => descendantsList cs

/-- `tag.find_all(pred)` of the HTML parser: the matching descendants in
document order (text nodes never satisfy the tag/attribute predicates used
below). -/
def Node.findAll (n : Node) (p : Node → Bool) : List Node :=
  n.descendants.filter p

def Node.tag : Node → String
  | .elem t _ _ => t
  | .text _ => ""

/-- `element.get(key)` of the HTML parser. -/
def Node.attr (n : Node) (k : String) : Option String :=
  match n with
  | .elem _ al _ => al.lookup k
  | .text _ => none

structure ImagesAnalysis where
  total : Nat
  with_alt : Nat
  with_empty_alt : Nat
  without_alt : Nat
  decorative_properly_marked : Nat

/-- The image alt-text taxonomy of
`AccessibilityAnalyzer.check_screen_reader_support`
(`website_analyzer/modules/accessibility.py`, lines 121-128): each counter
is the length of a list comprehension over `soup.find_all('img')`. -/
def check_screen_reader_images (soup : Node) : ImagesAnalysis :=
  let images := soup.findAll fun n => n.tag = "img"
  { total := images.length
    with_alt := (images.filter fun i => (i.attr "alt").isSome).length
    with_empty_alt := (images.filter fun i => i.attr "alt" = some "").length
    without_alt := (images.filter fun i => (i.attr "alt").isNone).length
    decorative_properly_marked :=
      (images.filter fun i =>
        i.attr "alt" = some "" && i.attr "role" = some "presentation").length }

/-- C9: for every document the image alt-text taxonomy partitions the
images exactly — `with_alt + without_alt = total` — and every image counted
in `with_empty_alt` is also counted in `with_alt`, so
`with_empty_alt ≤ with_alt`. -/
theorem check_screen_reader_images_partition (soup : Node) :
    (check_screen_reader_images soup).with_alt
          + (check_screen_reader_images soup).without_alt
        = (check_screen_reader_images soup).total ∧
      (check_screen_reader_images soup).with_empty_alt
        ≤ (check_screen_reader_images soup).with_alt := by
  simp only [check_screen_reader_images]
  constructor
  · have hpt : ∀ i : Node,
        (Node.attr i "alt").isNone = (!(Node.attr i "alt").isSome) := by
      intro i
      cases Node.attr i "alt" <;> rfl
    rw [List.filter_congr fun x _ => hpt x]
    exact length_filter_add_length_filter_not _ _
  · apply length_filter_le_length_filter
    intro x hx
    have hx2 : Node.attr x "alt" = some "" := of_decide_eq_true hx
    simp [Option.isSome, hx2]

structure TableAnalysis where
  total : Nat
  with_headers : Nat
  with_caption : Nat
  with_summary : Nat
  data_tables : Nat
  layout_tables : Nat

/-- Truthiness of `table.find('th')`: some descendant is a `th`. -/
def Node.hasTh (t : Node) : Bool := t.descendants.any fun n => n.tag = "th"

/-- `AccessibilityAnalyzer._analyze_tables`
(`website_analyzer/modules/accessibility.py`, lines 353-379), with the
per-table counting loop expressed as filters: a table is a data table when
it has a `th` descendant or carries `role="table"`, otherwise it is a
layout table; `table.get('summary')` truthiness requires a non-empty
value. -/
def analyze_tables (soup : Node) : TableAnalysis :=
  let tables := soup.findAll fun n => n.tag = "table"
  { total := tables.length
    with_headers := (tables.filter Node.hasTh).length
    with_caption :=
      (tables.filter fun t => t.descendants.any fun n => n.tag = "caption").length
    with_summary :=
      (tables.filter fun t => (t.attr "summary").getD "" ≠ "").length
    data_tables :=
      (tables.filter fun t => t.hasTh || t.attr "role" = some "table").length
    layout_tables :=
      (tables.filter fun t =>
        !(t.hasTh || t.attr "role" = some "table")).length }

/-- C10: for every document each table is classified as exactly one of data
table or layout table, so `data_tables + layout_tables = total`, and every
table counted in `with_headers` (it has a `th`) is a data table, so
`with_headers ≤ data_tables`. -/
theorem analyze_tables_partition (soup : Node) :
    (analyze_tables soup).data_tables + (analyze_tables soup).layout_tables
        = (analyze_tables soup).total ∧
      (analyze_tables soup).with_headers ≤ (analyze_tables soup).data_tables := by
  simp only [analyze_tables]
  constructor
  · exact length_filter_add_length_filter_not _ _
  · apply length_filter_le_length_filter
    intro x hx
    simp [hx]

structure WcagInputs where
  lang_attribute : String
  images_without_alt : Nat
  heading_hierarchy_issues : Bool
  total_inputs : Nat
  inputs_with_labels : Nat
  contrast_has_issues : Bool
  tabindex_issues : List String

structure WcagLevel where
  score : Nat
  total : Nat
  percentage : ℚ
  passed : Bool

/-- Python `round(x, 1)` over exact rationals.  (Mathlib `round` sends ties
upward while Python rounds float ties to even; no property proved here
evaluates `round1` at a tie.) -/
def round1 (x : ℚ) : ℚ := (round (10 * x) : ℤ) / 10

/-- `AccessibilityAnalyzer.check_wcag_compliance`
(`website_analyzer/modules/accessibility.py`, lines 259-315), as a function
of the fields it reads from the earlier sub-checks (which always populate
them, so the dictionary defaults never fire).  Returns the Level A and
Level AA records. -/
def check_wcag_compliance (i : WcagInputs) : WcagLevel × WcagLevel :=
  let level_a_total : Nat := 10
  let level_a_score :=
    (if i.lang_attribute ≠ "Missing" then 1 else 0)
      + (if i.images_without_alt = 0 then 1 else 0)
      + (if !i.heading_hierarchy_issues then 1 else 0)
      + (if i.total_inputs > 0 ∧ i.inputs_with_labels = i.total_inputs
          then 1 else 0)
      + 6
  let level_a : WcagLevel :=
    { score := level_a_score
      total := level_a_total
      percentage := round1 (((level_a_score : ℚ) / (level_a_total : ℚ)) * 100)
      passed := decide ((level_a_score : ℚ) ≥ (level_a_total : ℚ) * 0.8) }
  let level_aa_total : Nat := 15
  let level_aa_score := level_a_score
      + (if !i.contrast_has_issues then 1 else 0)
      + (if i.tabindex_issues.length = 0 then 1 else 0)
      + 2
  let level_aa : WcagLevel :=
    { score := level_aa_score
      total := level_aa_total
      percentage := round1 (((level_aa_score : ℚ) / (level_aa_total : ℚ)) * 100)
      passed := decide ((level_aa_score : ℚ) ≥ (level_aa_total : ℚ) * 0.8) }
  (level_a, level_aa)

/-- An integer score clears an 80% threshold of an integer total exactly
when it reaches the integer value of that threshold. -/
theorem q_threshold_iff (s t e : Nat) (h : (t : ℚ) * 0.8 = (e : ℚ)) :
    ((s : ℚ) ≥ (t : ℚ) * 0.8 ↔ s ≥ e) := by
  rw [h, ge_iff_le, ge_iff_le, Nat.cast_le]

/-- C3: the Level A score is one point for each of (lang attribute not
`Missing`), (no image lacks alt), (no heading-hierarchy issues),
(`total_inputs > 0` and all inputs labelled), plus a constant 6, out of 10,
and `passed` holds exactly when the score reaches 8 (80% of 10); Level AA
carries the Level A score forward, adds one point when there are no
contrast issues and one when the tabindex-issue list is empty, plus a
constant 2, out of 15, and `passed` holds exactly when the score reaches 12
(80% of 15). -/
theorem check_wcag_compliance_spec (i : WcagInputs) :
    (check_wcag_compliance i).1.score
          = (if i.lang_attribute ≠ "Missing" then 1 else 0)
            + (if i.images_without_alt = 0 then 1 else 0)
            + (if i.heading_hierarchy_issues = false then 1 else 0)
            + (if i.total_inputs > 0 ∧ i.inputs_with_labels = i.total_inputs
                then 1 else 0)
            + 6 ∧
      (check_wcag_compliance i).1.total = 10 ∧
      ((check_wcag_compliance i).1.passed = true ↔
        (check_wcag_compliance i).1.score ≥ 8) ∧
      (check_wcag_compliance i).2.score
          = (check_wcag_compliance i).1.score
            + (if i.contrast_has_issues = false then 1 else 0)
            + (if i.tabindex_issues = [] then 1 else 0)
            + 2 ∧
      (check_wcag_compliance i).2.total = 15 ∧
      ((check_wcag_compliance i).2.passed = true ↔
        (check_wcag_compliance i).2.score ≥ 12) := by
  have hb : ∀ b : Bool,
      (if !b then (1 : ℕ) else 0) = (if b = false then 1 else 0) := by
    intro b
    cases b <;> rfl
  have hl : (if i.tabindex_issues.length = 0 then (1 : ℕ) else 0)
      = (if i.tabindex_issues = [] then 1 else 0) := by
    by_cases h : i.tabindex_issues = []
    · simp [h]
    · simp [h, List.length_eq_zero]
  simp only [check_wcag_compliance, hb, hl]
  refine ⟨trivial, trivial, ?_, trivial, trivial, ?_⟩
  · rw [decide_eq_true_iff]
    exact q_threshold_iff _ 10 8 (by norm_num)
  · rw [decide_eq_true_iff]
    exact q_threshold_iff _ 15 12 (by norm_num)

def asciiLower (s : String) : String := String.mk (s.toList.map Char.toLower)

/-- `response.headers.get(name, default)`: HTTP header lookup is
case-insensitive (a `CaseInsensitiveDict` in the HTTP client). -/
def headersGet (hs : List (String × String)) (k d : String) : String :=
  match hs.find? fun p => asciiLower p.1 = asciiLower k with
  | some p => p.2
  | none => d

def securityHeaderNames : List String :=
  ["Strict-Transport-Security", "Content-Security-Policy",
   "X-Content-Type-Options", "X-Frame-Options", "X-XSS-Protection",
   "Referrer-Policy"]

structure HeadersAnalysis where
  values : List (String × String)
  missing_security_headers : Nat
  present_security_headers : Nat

/-- `SecurityAnalyzer.check_security_headers`
(`website_analyzer/modules/security.py`, lines 32-52): the fixed
seven-header checklist, with `Permissions-Policy` falling back to
`Feature-Policy`, each resolving to its value or the sentinel `Missing`.
(The derived percentage field is not modelled; no checked property reads
it.) -/
def check_security_headers (hs : List (String × String)) : HeadersAnalysis :=
  let values :=
    (securityHeaderNames.map fun n => (n, headersGet hs n "Missing")) ++
      [("Permissions-Policy",
        headersGet hs "Permissions-Policy" (headersGet hs "Feature-Policy" "Missing"))]
  let missing := (values.filter fun p => p.2 = "Missing").length
  { values := values
    missing_security_headers := missing
    present_security_headers := values.length - missing }

structure XssVector where
  element : String
  attr_name : String
  value : String
deriving DecidableEq

def pyTrunc100 (s : String) : String := String.mk (s.toList.take 100)

def risky_attrs : List String :=
  ["onclick", "onload", "onmouseover", "onerror", "onkeyup", "onsubmit"]

/-- Truthiness of `href=re.compile(r'^javascript:', re.I)`. -/
def Node.hasJsHref (n : Node) : Bool :=
  match n.attr "href" with
  | some h => "javascript:".toList.isPrefixOf (asciiLower h).toList
  | none => false

/-- The `potential_xss_vectors` list built by
`SecurityAnalyzer.check_content_security`
(`website_analyzer/modules/security.py`, lines 113-139): for each risky
event-handler attribute, up to 5 carrying elements; then up to 5
`javascript:`-scheme anchors.  (The inline-script fields of the same method
do not feed the security score and are not modelled.) -/
def check_content_security (soup : Node) : List XssVector :=
  (risky_attrs.flatMap fun attr =>
    ((soup.findAll fun n => (n.attr attr).isSome).take 5).map fun e =>
      { element := e.tag
        attr_name := attr
        value := pyTrunc100 ((e.attr attr).getD "") }) ++
  (((soup.findAll fun n => n.tag = "a" && n.hasJsHref).take 5).map fun e =>
    { element := "a"
      attr_name := "href"
      value := pyTrunc100 ((e.attr "href").getD "") })

structure FormDesc where
  action : String
  method : String
  issues : List String
deriving DecidableEq

structure FormSecurity where
  total : Nat
  with_csrf_protection : Nat
  with_https : Nat
  with_autocomplete_off : Nat
  insecure_forms : List FormDesc

/-- Python string truthiness. -/
def pyTruthy (s : String) : Bool := !s.isEmpty

/-- Occurrence of a pattern as a contiguous substring. -/
def containsSub (pat : List Char) : List Char → Bool
  | [] => pat.isEmpty
  | c :: cs => pat.isPrefixOf (c :: cs) || containsSub pat cs

/-- Search of the regex `csrf|token|_token|xsrf` (case-insensitive) inside
an attribute value. -/
def csrfNameMatch (s : String) : Bool :=
  let l := (asciiLower s).toList
  containsSub "csrf".toList l || containsSub "token".toList l ||
    containsSub "_token".toList l || containsSub "xsrf".toList l

/-- `form.find_all('input', attrs={'type': 'hidden', 'name': csrf-regex})`
membership test for one node. -/
def Node.isCsrfField (n : Node) : Bool :=
  n.tag = "input" && n.attr "type" = some "hidden" &&
    (match n.attr "name" with
     | some s => csrfNameMatch s
     | none => false)

/-- `SecurityAnalyzer.check_form_security`
(`website_analyzer/modules/security.py`, lines 186-249): the per-form loop,
folded left over `soup.find_all('form')` in document order. -/
def check_form_security (https_enabled : Bool) (soup : Node) : FormSecurity :=
  (soup.findAll fun n => n.tag = "form").foldl
    (fun acc form =>
      let action := (form.attr "action").getD ""
      let httpAction := pyTruthy action && action.toList.take 5 = "http:".toList
      let noActionInsecure := !pyTruthy action && !https_enabled
      let branch1Secure := !(httpAction || noActionInsecure)
      let issues1 :=
        if httpAction then ["Form submits to HTTP URL"]
        else if noActionInsecure then
          ["Form on non-HTTPS page without specific action"]
        else []
      let csrf := !(form.descendants.filter Node.isCsrfField).isEmpty
      let issues2 := if csrf then [] else ["No CSRF protection detected"]
      let autocompleteOff := form.attr "autocomplete" = some "off"
      let pws := form.descendants.filter fun n =>
        n.tag = "input" && n.attr "type" = some "password"
      let pwsOff := pws.filter fun f => f.attr "autocomplete" = some "off"
      let acOk := autocompleteOff || (!pws.isEmpty && pwsOff.length = pws.length)
      let issues3 :=
        if acOk then []
        else if !pws.isEmpty then ["Password fields without autocomplete=off"]
        else []
      let is_secure := branch1Secure && csrf && (acOk || pws.isEmpty)
      { total := acc.total + 1
        with_csrf_protection :=
          acc.with_csrf_protection + (if csrf then 1 else 0)
        with_https := acc.with_https + (if branch1Secure then 1 else 0)
        with_autocomplete_off :=
          acc.with_autocomplete_off + (if acOk then 1 else 0)
        insecure_forms := acc.insecure_forms ++
          (if is_secure then []
           else [{ action := action
                   method := (form.attr "method").getD "GET"
                   issues := issues1 ++ issues2 ++ issues3 }]) })
    { total := 0, with_csrf_protection := 0, with_https := 0,
      with_autocomplete_off := 0, insecure_forms := [] }

/-- The fields of the shared `security` dict read back by
`calculate_security_score`, with the same `dict.get` defaults: the
`mixed_content` sub-dict has no `count` key on a non-HTTPS page, which is
the `none` case. -/
structure SecurityData where
  missing_security_headers : Nat
  https_enabled : Bool
  ssl_issues : List String
  potential_xss_vectors : List XssVector
  mixed_content_count : Option Nat
  insecure_forms : List FormDesc

/-- `SecurityAnalyzer.calculate_security_score`
(`website_analyzer/modules/security.py`, lines 251-296): sequential guarded
deductions from 100, with the stored score floored at 0.  (The qualitative
rating and the textual deduction log are not modelled; no checked property
reads them.) -/
def calculate_security_score (s : SecurityData) : Int :=
  let header_deduction : Int :=
    if s.missing_security_headers > 0 then
      min ((s.missing_security_headers : Int) * 10) 40
    else 0
  let https_deduction : Int := if !s.https_enabled then 50 else 0
  let ssl_deduction : Int :=
    if s.ssl_issues.isEmpty then 0
    else min ((s.ssl_issues.length : Int) * 10) 30
  let xss_deduction : Int :=
    if s.potential_xss_vectors.length > 0 then
      min ((s.potential_xss_vectors.length : Int) * 5) 25
    else 0
  let mixed_deduction : Int :=
    if s.mixed_content_count.getD 0 > 0 then
      min ((s.mixed_content_count.getD 0 : Int) * 3) 15
    else 0
  let form_deduction : Int :=
    if s.insecure_forms.length > 0 then
      min ((s.insecure_forms.length : Int) * 10) 30
    else 0
  max 0 (100 - header_deduction - https_deduction - ssl_deduction
    - xss_deduction - mixed_deduction - form_deduction)

set_option maxHeartbeats 2000000 in
/-- C4: for every input the stored security score is
`max 0 (100 - capped deductions)` with the independent caps — missing
headers ×10 capped at 40, flat 50 without HTTPS, SSL issues ×10 capped at
30, XSS vectors ×5 capped at 25, mixed-content items ×3 capped at 15,
insecure forms ×10 capped at 30 — and in particular it never goes below
0. -/
theorem calculate_security_score_spec (s : SecurityData) :
    calculate_security_score s =
        max 0 (100 - min ((s.missing_security_headers : Int) * 10) 40
          - (if s.https_enabled = false then 50 else 0)
          - min ((s.ssl_issues.length : Int) * 10) 30
          - min ((s.potential_xss_vectors.length : Int) * 5) 25
          - min ((s.mixed_content_count.getD 0 : Int) * 3) 15
          - min ((s.insecure_forms.length : Int) * 10) 30) ∧
      0 ≤ calculate_security_score s := by
  have hssl : s.ssl_issues.isEmpty = decide (s.ssl_issues.length = 0) := by
    cases s.ssl_issues <;> rfl
  have hht : (!s.https_enabled) = decide (s.https_enabled = false) := by
    cases s.https_enabled <;> rfl
  constructor
  · simp only [calculate_security_score, hssl, hht, decide_eq_true_eq]
    split_ifs <;> omega
  · simp only [calculate_security_score]
    exact le_max_left 0 _

/-- The `SecurityAnalyzer.analyze` pipeline
(`website_analyzer/modules/security.py`, lines 23-30) for a page whose URL
scheme is not `https`: `check_security_headers`; then `check_ssl_tls`,
whose non-HTTPS branch (lines 56-61) sets `https_enabled = False` and
`ssl_issues = ["HTTPS not enabled"]`; then `check_content_security`;
`check_mixed_content`, which on a non-HTTPS page stores the `N/A` dict
without a `count` key (lines 143-145); `check_form_security`; and
`calculate_security_score`.  (The HTTPS branch of `check_ssl_tls` opens a
live TLS connection and is outside the model; the claims below concern a
plain-HTTP page.) -/
def security_analyze_non_https (respHeaders : List (String × String))
    (soup : Node) : SecurityData × Int :=
  let ha := check_security_headers respHeaders
  let data : SecurityData :=
    { missing_security_headers := ha.missing_security_headers
      https_enabled := false
      ssl_issues := ["HTTPS not enabled"]
      potential_xss_vectors := check_content_security soup
      mixed_content_count := none
      insecure_forms := (check_form_security false soup).insecure_forms }
  (data, calculate_security_score data)

/-- The minimal document of the end-to-end scenario,
`<html lang="en"><head><title>T</title></head><body><img src="a.jpg"></body></html>`,
under the parser document root. -/
def minimalDoc : Node :=
  .elem "[document]" []
    [.elem "html" [("lang", "en")]
      [.elem "head" [] [.elem "title" [] [.text "T"]],
       .elem "body" [] [.elem "img" [("src", "a.jpg")] []]]]

/-- C1 counterexample: for the minimal scenario — plain HTTP, a response
with none of the seven security headers, a document with no forms, scripts
or mixed content — the stored security score is not 50. -/
theorem security_score_minimal_http_ne_50 :
    (security_analyze_non_https [] minimalDoc).2 ≠ 50 := by decide

/-- C1 (amended): in the minimal scenario the stored security score is 0,
not 50: all 7 headers are missing (deduction `min (7 * 10) 40 = 40`), HTTPS
is off (deduction 50), and `check_ssl_tls` records `"HTTPS not enabled"`
as an SSL issue, adding a further `min (1 * 10) 30 = 10`; the raw score
100 − 40 − 50 − 10 = 0 is stored as `max 0 0 = 0`. -/
theorem security_score_minimal_http_eq_0 :
    (security_analyze_non_https [] minimalDoc).2 = 0 ∧
      (security_analyze_non_https [] minimalDoc).1.missing_security_headers = 7 ∧
      (security_analyze_non_https [] minimalDoc).1.ssl_issues
        = ["HTTPS not enabled"] ∧
      (security_analyze_non_https [] minimalDoc).1.potential_xss_vectors = [] ∧
      (security_analyze_non_https [] minimalDoc).1.insecure_forms = [] := by
  refine ⟨by decide, by decide, by decide, ?_, ?_⟩ <;> decide

structure ScoresInput where
  total_load_time : Option ℚ
  response_size_mb : Option ℚ
  level_aa_percentage : Option ℚ
  security_score : Option ℚ

structure Scores where
  performance : ℚ
  accessibility : ℚ
  security : ℚ
  overall : ℚ

/-- `WebsiteAnalyzer._calculate_scores`
(`website_analyzer/core/analyzer.py`, lines 100-138): the performance score
starts at 100, subtracts a single load-time deduction picked by the
`if/elif` chain, then a single size deduction, and is floored at 0; the
accessibility score is the WCAG level-AA percentage and the security score
the stored security score (each `safe_get` default 0 when absent); the
overall score is the 0.4/0.4/0.2 weighted sum rounded to one decimal. -/
def calculate_scores (i : ScoresInput) : Scores :=
  let load_time := i.total_load_time.getD 0
  let perf1 : ℚ := 100 -
    (if load_time > 3 then 30 else if load_time > 2 then 15
     else if load_time > 1 then 5 else 0)
  let size_mb := i.response_size_mb.getD 0
  let perf2 : ℚ := perf1 -
    (if size_mb > 2 then 20 else if size_mb > 1 then 10 else 0)
  let performance := max 0 perf2
  let accessibility := i.level_aa_percentage.getD 0
  let security := i.security_score.getD 0
  { performance := performance
    accessibility := accessibility
    security := security
    overall := round1 (performance * 0.4 + accessibility * 0.4
      + security * 0.2) }

/-- C7: the performance score is 100 minus mutually exclusive load-time
deductions (30 when load time exceeds 3 seconds, else 15 above 2, else 5
above 1) and mutually exclusive size deductions (20 above 2 MB, else 10
above 1 MB), floored at 0; the overall score is
`0.4 × performance + 0.4 × accessibility + 0.2 × security` rounded to one
decimal. -/
theorem calculate_scores_spec (i : ScoresInput) :
    (calculate_scores i).performance =
        max 0 (100
          - (if i.total_load_time.getD 0 > 3 then 30
             else if i.total_load_time.getD 0 > 2 then 15
             else if i.total_load_time.getD 0 > 1 then 5 else 0)
          - (if i.response_size_mb.getD 0 > 2 then 20
             else if i.response_size_mb.getD 0 > 1 then 10 else 0)) ∧
      (calculate_scores i).overall =
        round1 ((4 / 10) * (calculate_scores i).performance
          + (4 / 10) * (calculate_scores i).accessibility
          + (2 / 10) * (calculate_scores i).security) := by
  simp only [calculate_scores]
  constructor
  · ring_nf
  · have h4 : (0.4 : ℚ) = 4 / 10 := by norm_num
    have h2 : (0.2 : ℚ) = 2 / 10 := by norm_num
    rw [h4, h2]
    ring_nf

end WebsiteAnalyzer
